import Mathlib

/-!
# CloudHSMv2 cluster data source

A shallow embedding of `aws/data_source_aws_cloudhsm2_cluster.go`
(`dataSourceCloudHsm2ClusterRead`) together with the properties of its read
operation: the request it sends, the cluster it selects, the attributes it
writes and the errors it returns.

Conventions of the embedding.

* A Go `*string` is an `Option String`; `nil` is `none`.
* A Go slice of pointers to SDK structs (`[]*Cluster`, `[]*Hsm`) is a `List` of
  the struct: a `nil` entry would need a JSON `null` inside the list, which is
  outside the shape of the service's response.  Optional scalar members of
  those structs, which the service does leave out, stay `Option`.
* A Go `map[string]T` is an association list; `range` over it visits the
  entries in the order of the list, which stands for whichever order the Go
  runtime picks.
* A run-time panic (dereferencing `nil`) is an explicit outcome.
* The collaborators outside this repository (the SDK connection and the
  schema layer behind `ResourceData.Set`) are fields holding functions, so
  every theorem quantifies over all their behaviours.
-/

namespace CloudHsm2

/-! ## Go values used by the function -/

/-- A Go `error` value.  `foreign` is an error value produced by a collaborator
(the SDK call or `ResourceData.Set`); `errorf` is one built by `fmt.Errorf`.
Both carry the text that `Error()` yields. -/
inductive GoError where
  | foreign (text : String)
  | errorf (text : String)
  deriving DecidableEq, Repr

/-- The method `Error()` of a Go `error`. -/
def GoError.Error : GoError → String
  | .foreign text => text
  | .errorf text => text

/-- The function `aws.StringValue` of the SDK: the pointed-to string, or the
empty string for `nil`. -/
def StringValue : Option String → String
  | some s => s
  | none => ""

/-- Assignment `m[key] = value` on a Go map kept as an association list. -/
def mapAssign {α : Type} : List (String × α) → String → α → List (String × α)
  | [], key, value => [(key, value)]
  | (k, v) :: rest, key, value =>
    if k = key then (k, value) :: rest else (k, v) :: mapAssign rest key value

/-- Lookup `m[key]` on a Go map kept as an association list. -/
def mapLookup {α : Type} : List (String × α) → String → Option α
  | [], _ => none
  | (k, v) :: rest, key => if k = key then some v else mapLookup rest key

/-! ## SDK types (`cloudhsmv2`), restricted to the members the function reads -/

/-- The struct `cloudhsmv2.Hsm`. -/
structure Hsm where
  EniIp : Option String
  deriving DecidableEq, Repr

/-- The struct `cloudhsmv2.Certificates`. -/
structure Certificates where
  AwsHardwareCertificate : Option String
  ClusterCertificate : Option String
  ClusterCsr : Option String
  HsmCertificate : Option String
  ManufacturerHardwareCertificate : Option String
  deriving DecidableEq, Repr

/-- The struct `cloudhsmv2.Cluster`. `SubnetMapping` is `map[string]*string`
(availability zone to subnet id). -/
structure Cluster where
  ClusterId : Option String
  VpcId : Option String
  SecurityGroup : Option String
  State : Option String
  SubnetMapping : List (String × Option String)
  Hsms : List Hsm
  Certificates : Option Certificates
  deriving DecidableEq, Repr

/-- The struct `cloudhsmv2.DescribeClustersInput`; `Filters` is
`map[string][]*string`, `MaxResults` is `*int64`. -/
structure DescribeClustersInput where
  Filters : List (String × List String)
  MaxResults : Option Int
  deriving DecidableEq, Repr

/-- The struct `cloudhsmv2.DescribeClustersOutput`. -/
structure DescribeClustersOutput where
  Clusters : List Cluster
  deriving DecidableEq, Repr

/-- The SDK connection `*cloudhsmv2.CloudHSMV2`: its one method used here, as a
function of the request. -/
structure CloudHSMV2 where
  DescribeClusters : DescribeClustersInput → Except GoError DescribeClustersOutput

/-- The struct `AWSClient`, restricted to the connection the function uses. -/
structure AWSClient where
  cloudhsmv2conn : CloudHSMV2

/-! ## The schema layer (`schema.ResourceData`) -/

/-- The values this function hands to `ResourceData.Set`: a `*string`, a
`[]string`, or a `[]map[string]interface{}` of strings. -/
inductive Value where
  | str (v : Option String)
  | strs (v : List String)
  | maps (v : List (List (String × String)))
  deriving DecidableEq, Repr

/-- The record `*schema.ResourceData`: its identity, its attributes, and the
verdict of the schema on a write (`none` when the write is accepted). -/
structure ResourceData where
  id : String
  attrs : List (String × Value)
  setErr : String → Value → Option GoError

/-- The method `d.Id()`. -/
def ResourceData.Id (d : ResourceData) : String := d.id

/-- The method `d.SetId(v)`. -/
def ResourceData.SetId (d : ResourceData) (v : String) : ResourceData :=
  { d with id := v }

/-- The expression `d.Get(key).(string)` on a string attribute: its value, the
zero value when unset.  The two keys read this way, `cluster_id` and
`cluster_state`, are declared as strings by the schema of lines 17-26, so the
type assertion succeeds. -/
def ResourceData.GetString (d : ResourceData) (key : String) : String :=
  match mapLookup d.attrs key with
  | some (.str v) => StringValue v
  | _ => ""

/-- The method `d.Set(key, value)`: a rejected write returns the error and
leaves the record as it was, an accepted one stores the value. -/
def ResourceData.Set (d : ResourceData) (key : String) (value : Value) :
    ResourceData × Option GoError :=
  match d.setErr key value with
  | some err => (d, some err)
  | none => ({ d with attrs := mapAssign d.attrs key value }, none)

/-! ## The read operation -/

/-- How a call ends: it returns its `error` result (`none` is `nil`), or it
panics on a `nil` dereference. -/
inductive Outcome where
  | returned (err : Option GoError)
  | nilDereference
  deriving DecidableEq, Repr

/-- One call of `d.Set`, with what it returned. -/
structure SetCall where
  key : String
  value : Value
  err : Option GoError
  deriving DecidableEq, Repr

/-- What a call of the read operation leaves behind: the record, the requests
sent to the remote service, the `d.Set` calls made, both in order, and how the
call ended. -/
structure ReadResult where
  d : ResourceData
  requests : List DescribeClustersInput
  sets : List SetCall
  outcome : Outcome

/-- The loop of lines 106-112: `cluster` starts `nil` and every entry whose
identifier, read with `aws.StringValue`, equals `clusterId` is assigned to
it. -/
def selectCluster (clusterId : String) (clusters : List Cluster) : Option Cluster :=
  clusters.foldl
    (fun cluster c => if StringValue c.ClusterId ≠ clusterId then cluster else some c)
    none

/-- The loops of lines 123-126 and 131-134: append `*p` for every pointer in
turn; `none` when a `nil` pointer is dereferenced. -/
def derefAll : List (Option String) → Option (List String)
  | [] => some []
  | none :: _ => none
  | some s :: rest =>
    match derefAll rest with
    | some xs => some (s :: xs)
    | none => none

/-- The request of lines 85-99.  `len(state) > 0` counts bytes and
`state.length > 0` characters; both say that the string is not empty. -/
def describeClustersInput (d : ResourceData) : DescribeClustersInput :=
  let clusterId := d.GetString "cluster_id"
  let filters := [clusterId]
  let result : Int := 1
  let input : DescribeClustersInput :=
    { Filters := [("clusterIds", filters)], MaxResults := some result }
  let state := d.GetString "cluster_state"
  let states := [state]
  if state.length > 0 then
    { input with Filters := mapAssign input.Filters "states" states }
  else input

/-- Lines 115-118 of the branch `cluster != nil`: the identity and the three
scalar attributes.  The results of these three `d.Set` calls are discarded by
the source; they are kept here only in the list of calls. -/
def writeScalars (d : ResourceData) (clusterId : String) (cluster : Cluster) :
    ResourceData × List SetCall :=
  let d := d.SetId clusterId
  let (d, e1) := d.Set "vpc_id" (.str cluster.VpcId)
  let (d, e2) := d.Set "security_group_id" (.str cluster.SecurityGroup)
  let (d, e3) := d.Set "cluster_state" (.str cluster.State)
  (d, [⟨"vpc_id", .str cluster.VpcId, e1⟩,
       ⟨"security_group_id", .str cluster.SecurityGroup, e2⟩,
       ⟨"cluster_state", .str cluster.State, e3⟩])

/-- Lines 119-137 of the branch `cluster != nil` and the `return nil` of line
142: the certificates and the two flattened lists, each write checked.
`readCloudHsm2ClusterCertificates` is the helper of the repository defined
outside the file. -/
def writeDerived
    (readCloudHsm2ClusterCertificates : Cluster → List (List (String × String)))
    (d : ResourceData) (input : DescribeClustersInput) (cluster : Cluster) : ReadResult :=
  let certs := readCloudHsm2ClusterCertificates cluster
  let (d, e4) := d.Set "cluster_certificates" (.maps certs)
  let log4 : List SetCall := [⟨"cluster_certificates", .maps certs, e4⟩]
  match e4 with
  | some err => ⟨d, [input], log4, .returned (some err)⟩
  | none =>
    match derefAll (cluster.SubnetMapping.map Prod.snd) with
    | none => ⟨d, [input], log4, .nilDereference⟩
    | some subnets =>
      let (d, e5) := d.Set "subnet_ids" (.strs subnets)
      let log5 := log4 ++ [⟨"subnet_ids", .strs subnets, e5⟩]
      match e5 with
      | some err =>
        ⟨d, [input], log5, .returned (some (.errorf
          ("[DEBUG] Error saving Subnet IDs to state for CloudHSMv2 Cluster ("
            ++ d.Id ++ "): " ++ err.Error)))⟩
      | none =>
        match derefAll (cluster.Hsms.map Hsm.EniIp) with
        | none => ⟨d, [input], log5, .nilDereference⟩
        | some ips =>
          let (d, e6) := d.Set "ip_addresses" (.strs ips)
          let log6 := log5 ++ [⟨"ip_addresses", .strs ips, e6⟩]
          match e6 with
          | some err =>
            ⟨d, [input], log6, .returned (some (.errorf
              ("[DEBUG] Error saving IP Addresses state for CloudHSMv2 Cluster ("
                ++ d.Id ++ "): " ++ err.Error)))⟩
          | none => ⟨d, [input], log6, .returned none⟩

/-- The branch `cluster != nil` of lines 114-138, on the record `d` and the
request `input` already sent. -/
def writeCluster
    (readCloudHsm2ClusterCertificates : Cluster → List (List (String × String)))
    (d : ResourceData) (input : DescribeClustersInput) (clusterId : String)
    (cluster : Cluster) : ReadResult :=
  let (d, log3) := writeScalars d clusterId cluster
  let r := writeDerived readCloudHsm2ClusterCertificates d input cluster
  { r with sets := log3 ++ r.sets }

/-- The function `dataSourceCloudHsm2ClusterRead(d, meta)`; `client` is
`meta.(*AWSClient)`.  The `log.Printf` of line 87 has no effect on the result
and is left out. -/
def dataSourceCloudHsm2ClusterRead
    (readCloudHsm2ClusterCertificates : Cluster → List (List (String × String)))
    (d : ResourceData) (client : AWSClient) : ReadResult :=
  let conn := client.cloudhsmv2conn
  let clusterId := d.GetString "cluster_id"
  let input := describeClustersInput d
  match conn.DescribeClusters input with
  | .error err => ⟨d, [input], [], .returned (some err)⟩
  | .ok out =>
    match selectCluster clusterId out.Clusters with
    | some cluster =>
      writeCluster readCloudHsm2ClusterCertificates d input clusterId cluster
    | none =>
      ⟨d, [input], [], .returned (some (.errorf
        ("cluster with id " ++ clusterId ++ " not found")))⟩

/-! ## Sample data -/

/-- A schema that accepts every write. -/
def acceptAll : String → Value → Option GoError := fun _ _ => none

/-- A record configured with `cluster_id = "A"`. -/
def dA : ResourceData :=
  { id := "", attrs := [("cluster_id", .str (some "A"))], setErr := acceptAll }

/-- A helper returning no certificates. -/
def noCerts : Cluster → List (List (String × String)) := fun _ => []

/-- A cluster with identifier `"A"`, two subnets and two modules. -/
def clusterA : Cluster :=
  { ClusterId := some "A", VpcId := some "vpc-1", SecurityGroup := some "sg-1",
    State := some "ACTIVE",
    SubnetMapping := [("us-east-1a", some "subnet-1"), ("us-east-1b", some "subnet-2")],
    Hsms := [⟨some "10.0.0.1"⟩, ⟨some "10.0.0.2"⟩], Certificates := none }

/-- A client whose remote call answers with the given clusters. -/
def clientOf (clusters : List Cluster) : AWSClient :=
  ⟨⟨fun _ => .ok ⟨clusters⟩⟩⟩

/-- A record configured with `cluster_id = "B"`. -/
def dB : ResourceData :=
  { id := "", attrs := [("cluster_id", .str (some "B"))], setErr := acceptAll }

/-- A record configured with `cluster_id = "A"` and `cluster_state = "DELETED"`. -/
def dADeleted : ResourceData :=
  { id := "", attrs := [("cluster_id", .str (some "A")), ("cluster_state", .str (some "DELETED"))],
    setErr := acceptAll }

/-- A client whose remote call fails. -/
def clientFailing : AWSClient :=
  ⟨⟨fun _ => .error (.foreign "AccessDeniedException: not authorized")⟩⟩

/-- A second cluster with identifier `"A"` and other members. -/
def clusterA2 : Cluster :=
  { ClusterId := some "A", VpcId := some "vpc-2", SecurityGroup := some "sg-2",
    State := some "DEGRADED", SubnetMapping := [("us-east-1c", some "subnet-3")],
    Hsms := [⟨some "10.0.1.1"⟩], Certificates := none }

/-- A cluster with identifier `"A"` one of whose modules has no address yet. -/
def clusterNoIp : Cluster :=
  { clusterA with Hsms := [⟨some "10.0.0.1"⟩, ⟨none⟩] }

/-- A schema that rejects the writes of `vpc_id` and `security_group_id` and
accepts the others. -/
def rejectVpcAndGroup : String → Value → Option GoError := fun key _ =>
  if key = "vpc_id" ∨ key = "security_group_id" then
    some (.foreign "Invalid address to set") else none

/-- The schema of lines 16-78: a write is accepted for the seven declared keys
and refused for every other key. -/
def declaredSchema : String → Value → Option GoError := fun key _ =>
  if key = "cluster_id" ∨ key = "cluster_state" ∨ key = "vpc_id" ∨ key = "security_group_id"
      ∨ key = "cluster_certificates" ∨ key = "subnet_ids" ∨ key = "ip_addresses" then
    none else some (.foreign "Invalid address to set")

/-- A record configured with `cluster_id = "A"` under the declared schema. -/
def dADeclared : ResourceData :=
  { id := "", attrs := [("cluster_id", .str (some "A"))], setErr := declaredSchema }

/-- A schema that rejects the write of `cluster_certificates`. -/
def rejectCerts : String → Value → Option GoError := fun key _ =>
  if key = "cluster_certificates" then some (.foreign "Invalid address to set") else none

/-- A schema that rejects the write of `ip_addresses`. -/
def rejectIps : String → Value → Option GoError := fun key _ =>
  if key = "ip_addresses" then some (.foreign "Invalid address to set") else none

/-! ## Lemmas on the helpers -/

theorem mapLookup_mapAssign_self {α : Type} (m : List (String × α)) (key : String) (value : α) :
    mapLookup (mapAssign m key value) key = some value := by
  induction m with
  | nil => simp [mapAssign, mapLookup]
  | cons kv rest ih =>
    obtain ⟨k, v⟩ := kv
    by_cases h : k = key
    · simp [mapAssign, mapLookup, h]
    · simp [mapAssign, mapLookup, h, ih]

theorem mapLookup_mapAssign_ne {α : Type} (m : List (String × α)) (key other : String)
    (value : α) (h : other ≠ key) :
    mapLookup (mapAssign m key value) other = mapLookup m other := by
  induction m with
  | nil =>
    have h2 : ¬ key = other := fun e => h e.symm
    simp [mapAssign, mapLookup, h2]
  | cons kv rest ih =>
    obtain ⟨k, v⟩ := kv
    by_cases hk : k = key
    · subst hk
      have h2 : ¬ k = other := fun e => h e.symm
      simp [mapAssign, mapLookup, h2]
    · by_cases ho : k = other
      · subst ho
        simp [mapAssign, mapLookup, hk]
      · simp [mapAssign, mapLookup, hk, ho, ih]

theorem string_length_pos_iff (s : String) : s.length > 0 ↔ s ≠ "" := by
  obtain ⟨cs⟩ := s
  cases cs with
  | nil => simp [String.length]
  | cons c cs =>
    simp only [String.length, List.length_cons, gt_iff_lt, Nat.zero_lt_succ, ne_eq, true_iff]
    intro h
    exact absurd (congrArg String.data h) (by simp)

/-- The selection loop, one entry further. -/
theorem selectCluster_concat (clusterId : String) (clusters : List Cluster) (c : Cluster) :
    selectCluster clusterId (clusters ++ [c]) =
      if StringValue c.ClusterId = clusterId then some c
      else selectCluster clusterId clusters := by
  unfold selectCluster
  rw [List.foldl_append]
  by_cases h : StringValue c.ClusterId = clusterId <;> simp [h]

/-- The selection loop returns the last entry carrying the requested
identifier. -/
theorem selectCluster_eq_getLast (clusterId : String) (clusters : List Cluster) :
    selectCluster clusterId clusters =
      (clusters.filter (fun c => StringValue c.ClusterId = clusterId)).getLast? := by
  induction clusters using List.reverseRecOn with
  | nil => rfl
  | append_singleton cs c ih =>
    rw [selectCluster_concat, List.filter_append, List.getLast?_append]
    by_cases h : StringValue c.ClusterId = clusterId
    · simp [h]
    · simp [h, ih]

theorem selectCluster_none (clusterId : String) (clusters : List Cluster)
    (h : ∀ c ∈ clusters, StringValue c.ClusterId ≠ clusterId) :
    selectCluster clusterId clusters = none := by
  rw [selectCluster_eq_getLast]
  have : clusters.filter (fun c => StringValue c.ClusterId = clusterId) = [] := by
    simp only [List.filter_eq_nil_iff, decide_eq_true_eq]
    exact h
  rw [this]; rfl

theorem derefAll_eq_some (ps : List (Option String)) (xs : List String) :
    derefAll ps = some xs ↔ ps = xs.map some := by
  induction ps generalizing xs with
  | nil => cases xs <;> simp [derefAll]
  | cons p rest ih =>
    cases p with
    | none => cases xs <;> simp [derefAll]
    | some s =>
      cases hr : derefAll rest with
      | none =>
        simp only [derefAll, hr]
        constructor
        · intro h; cases h
        · intro h
          cases xs with
          | nil => simp at h
          | cons x xs =>
            simp only [List.map_cons, List.cons.injEq, Option.some.injEq] at h
            have := (ih xs).2 h.2
            rw [hr] at this; cases this
      | some ys =>
        simp only [derefAll, hr, Option.some.injEq]
        have hy := (ih ys).1 hr
        constructor
        · intro h; subst h; simp [hy]
        · intro h
          cases xs with
          | nil => simp at h
          | cons x xs =>
            simp only [List.map_cons, List.cons.injEq, Option.some.injEq] at h
            have h2 := (ih xs).2 h.2
            rw [hr] at h2
            simp only [Option.some.injEq] at h2
            rw [h.1, h2]

theorem derefAll_isSome (ps : List (Option String)) (h : ∀ p ∈ ps, p ≠ none) :
    ∃ xs, derefAll ps = some xs := by
  induction ps with
  | nil => exact ⟨[], rfl⟩
  | cons p rest ih =>
    cases p with
    | none => exact absurd rfl (h none (List.mem_cons_self _ _))
    | some s =>
      obtain ⟨ys, hy⟩ := ih (fun q hq => h q (List.mem_cons_of_mem _ hq))
      exact ⟨s :: ys, by simp [derefAll, hy]⟩

/-! ## Lemmas on the branch `cluster != nil` -/

theorem writeScalars_id (d : ResourceData) (clusterId : String) (c : Cluster) :
    (writeScalars d clusterId c).1.id = clusterId := by
  rcases h1 : d.setErr "vpc_id" (.str c.VpcId) with _ | a1 <;>
  rcases h2 : d.setErr "security_group_id" (.str c.SecurityGroup) with _ | a2 <;>
  rcases h3 : d.setErr "cluster_state" (.str c.State) with _ | a3 <;>
  simp only [writeScalars, ResourceData.Set, ResourceData.SetId, h1, h2, h3]

theorem writeScalars_setErr (d : ResourceData) (clusterId : String) (c : Cluster) :
    (writeScalars d clusterId c).1.setErr = d.setErr := by
  rcases h1 : d.setErr "vpc_id" (.str c.VpcId) with _ | a1 <;>
  rcases h2 : d.setErr "security_group_id" (.str c.SecurityGroup) with _ | a2 <;>
  rcases h3 : d.setErr "cluster_state" (.str c.State) with _ | a3 <;>
  simp only [writeScalars, ResourceData.Set, ResourceData.SetId, h1, h2, h3]

theorem writeScalars_sets (d : ResourceData) (clusterId : String) (c : Cluster) :
    (writeScalars d clusterId c).2 =
      [⟨"vpc_id", .str c.VpcId, d.setErr "vpc_id" (.str c.VpcId)⟩,
       ⟨"security_group_id", .str c.SecurityGroup,
         d.setErr "security_group_id" (.str c.SecurityGroup)⟩,
       ⟨"cluster_state", .str c.State, d.setErr "cluster_state" (.str c.State)⟩] := by
  rcases h1 : d.setErr "vpc_id" (.str c.VpcId) with _ | a1 <;>
  rcases h2 : d.setErr "security_group_id" (.str c.SecurityGroup) with _ | a2 <;>
  rcases h3 : d.setErr "cluster_state" (.str c.State) with _ | a3 <;>
  simp only [writeScalars, ResourceData.Set, ResourceData.SetId, h1, h2, h3]

theorem writeScalars_accepted (d : ResourceData) (clusterId : String) (c : Cluster)
    (h1 : d.setErr "vpc_id" (.str c.VpcId) = none)
    (h2 : d.setErr "security_group_id" (.str c.SecurityGroup) = none)
    (h3 : d.setErr "cluster_state" (.str c.State) = none) :
    (writeScalars d clusterId c).1.attrs =
      mapAssign (mapAssign (mapAssign d.attrs "vpc_id" (.str c.VpcId))
        "security_group_id" (.str c.SecurityGroup)) "cluster_state" (.str c.State) := by
  simp only [writeScalars, ResourceData.Set, ResourceData.SetId, h1, h2, h3]

/-- When every scalar write made is accepted, the three writes were accepted by
the schema. -/
theorem writeScalars_all_accepted (d : ResourceData) (clusterId : String) (c : Cluster)
    (hall : ∀ s ∈ (writeScalars d clusterId c).2, s.err = none) :
    d.setErr "vpc_id" (.str c.VpcId) = none ∧
    d.setErr "security_group_id" (.str c.SecurityGroup) = none ∧
    d.setErr "cluster_state" (.str c.State) = none := by
  rw [writeScalars_sets] at hall
  simp only [List.forall_mem_cons, List.not_mem_nil, false_implies, implies_true,
    and_true] at hall
  exact hall

theorem writeDerived_id
    (readCerts : Cluster → List (List (String × String)))
    (d : ResourceData) (input : DescribeClustersInput) (c : Cluster) :
    (writeDerived readCerts d input c).d.id = d.id := by
  rcases h4 : d.setErr "cluster_certificates" (.maps (readCerts c)) with _ | a4
  · simp only [writeDerived, ResourceData.Set, h4]
    repeat' split
    all_goals rfl
  · simp only [writeDerived, ResourceData.Set, h4]

theorem writeDerived_requests
    (readCerts : Cluster → List (List (String × String)))
    (d : ResourceData) (input : DescribeClustersInput) (c : Cluster) :
    (writeDerived readCerts d input c).requests = [input] := by
  rcases h4 : d.setErr "cluster_certificates" (.maps (readCerts c)) with _ | a4
  · simp only [writeDerived, ResourceData.Set, h4]
    repeat' split
    all_goals rfl
  · simp only [writeDerived, ResourceData.Set, h4]

/-- The first checked write is the one of the certificates. -/
theorem writeDerived_first_set
    (readCerts : Cluster → List (List (String × String)))
    (d : ResourceData) (input : DescribeClustersInput) (c : Cluster) :
    ((writeDerived readCerts d input c).sets.map (fun s => (s.key, s.value))).take 1 =
      [("cluster_certificates", .maps (readCerts c))] := by
  rcases h4 : d.setErr "cluster_certificates" (.maps (readCerts c)) with _ | a4 <;>
  simp only [writeDerived, ResourceData.Set, h4] <;>
  repeat' split
  all_goals rfl

/-- When both flattening loops meet no `nil`, the checked writes end in a
return. -/
theorem writeDerived_returns
    (readCerts : Cluster → List (List (String × String)))
    (d : ResourceData) (input : DescribeClustersInput) (c : Cluster)
    (hsub : ∀ e ∈ c.SubnetMapping, e.2 ≠ none) (hips : ∀ h ∈ c.Hsms, h.EniIp ≠ none) :
    ∃ err, (writeDerived readCerts d input c).outcome = .returned err := by
  obtain ⟨subnets, hs⟩ := derefAll_isSome (c.SubnetMapping.map Prod.snd) (by
    intro p hp
    obtain ⟨e, he, rfl⟩ := List.mem_map.1 hp
    exact hsub e he)
  obtain ⟨ips, hi⟩ := derefAll_isSome (c.Hsms.map Hsm.EniIp) (by
    intro p hp
    obtain ⟨h, hh, rfl⟩ := List.mem_map.1 hp
    exact hips h hh)
  rcases h4 : d.setErr "cluster_certificates" (.maps (readCerts c)) with _ | a4 <;>
  simp only [writeDerived, ResourceData.Set, hs, hi, h4] <;>
  repeat' split
  all_goals exact ⟨_, rfl⟩

/-- The checked writes when every one of them made is accepted and both loops
meet no `nil`. -/
theorem writeDerived_accepted
    (readCerts : Cluster → List (List (String × String)))
    (d : ResourceData) (input : DescribeClustersInput) (c : Cluster)
    (subnets ips : List String)
    (hs : derefAll (c.SubnetMapping.map Prod.snd) = some subnets)
    (hi : derefAll (c.Hsms.map Hsm.EniIp) = some ips)
    (hall : ∀ s ∈ (writeDerived readCerts d input c).sets, s.err = none) :
    (writeDerived readCerts d input c).outcome = .returned none ∧
    (writeDerived readCerts d input c).d.attrs =
      mapAssign (mapAssign (mapAssign d.attrs "cluster_certificates" (.maps (readCerts c)))
        "subnet_ids" (.strs subnets)) "ip_addresses" (.strs ips) := by
  revert hall
  rcases h4 : d.setErr "cluster_certificates" (.maps (readCerts c)) with _ | a4 <;>
  rcases h5 : d.setErr "subnet_ids" (.strs subnets) with _ | a5 <;>
  rcases h6 : d.setErr "ip_addresses" (.strs ips) with _ | a6 <;>
  simp only [writeDerived, ResourceData.Set, h4, h5, h6, hs, hi] <;>
  intro hall
  all_goals first
    | exact ⟨trivial, trivial⟩
    | exact ⟨rfl, rfl⟩
    | (simp at hall)

/-- The lists handed to `d.Set` for `subnet_ids` and `ip_addresses` are the
dereferenced subnet ids and module addresses of the cluster, in order. -/
theorem writeDerived_values
    (readCerts : Cluster → List (List (String × String)))
    (d : ResourceData) (input : DescribeClustersInput) (c : Cluster)
    (s : SetCall) (h : s ∈ (writeDerived readCerts d input c).sets) :
    (s.key = "subnet_ids" →
      ∃ xs, s.value = .strs xs ∧ xs.map some = c.SubnetMapping.map Prod.snd) ∧
    (s.key = "ip_addresses" →
      ∃ xs, s.value = .strs xs ∧ xs.map some = c.Hsms.map Hsm.EniIp) := by
  revert s
  rcases h4 : d.setErr "cluster_certificates" (.maps (readCerts c)) with _ | a4 <;>
  simp only [writeDerived, ResourceData.Set, h4] <;>
  repeat' split
  all_goals intro s hs
  all_goals simp only [List.mem_append, List.mem_cons, List.mem_singleton, List.not_mem_nil,
    or_false, or_assoc] at hs
  all_goals rcases hs with rfl | rfl | rfl
  all_goals refine ⟨fun hk => ?_, fun hk => ?_⟩
  all_goals first
    | exact ⟨_, rfl, ((derefAll_eq_some _ _).1 (by assumption)).symm⟩
    | simp at hk

/-- What a rejected checked write makes of the call: the certificates' error
is returned as it is, the two others inside a message built by `fmt.Errorf`. -/
theorem writeDerived_rejected
    (readCerts : Cluster → List (List (String × String)))
    (d : ResourceData) (input : DescribeClustersInput) (c : Cluster)
    (s : SetCall) (e : GoError)
    (h : s ∈ (writeDerived readCerts d input c).sets) (he : s.err = some e) :
    (s.key = "cluster_certificates" →
      (writeDerived readCerts d input c).outcome = .returned (some e)) ∧
    (s.key = "subnet_ids" →
      (writeDerived readCerts d input c).outcome = .returned (some (.errorf
        ("[DEBUG] Error saving Subnet IDs to state for CloudHSMv2 Cluster ("
          ++ d.id ++ "): " ++ e.Error)))) ∧
    (s.key = "ip_addresses" →
      (writeDerived readCerts d input c).outcome = .returned (some (.errorf
        ("[DEBUG] Error saving IP Addresses state for CloudHSMv2 Cluster ("
          ++ d.id ++ "): " ++ e.Error)))) := by
  revert s
  rcases h4 : d.setErr "cluster_certificates" (.maps (readCerts c)) with _ | a4 <;>
  simp only [writeDerived, ResourceData.Set, ResourceData.Id, h4] <;>
  repeat' split
  all_goals intro s hs he
  all_goals simp only [List.mem_append, List.mem_cons, List.mem_singleton, List.not_mem_nil,
    or_false, or_assoc] at hs
  all_goals rcases hs with rfl | rfl | rfl
  all_goals simp_all

theorem writeCluster_eq
    (readCerts : Cluster → List (List (String × String)))
    (d : ResourceData) (input : DescribeClustersInput) (clusterId : String) (c : Cluster) :
    writeCluster readCerts d input clusterId c =
      { writeDerived readCerts (writeScalars d clusterId c).1 input c with
        sets := (writeScalars d clusterId c).2
          ++ (writeDerived readCerts (writeScalars d clusterId c).1 input c).sets } := by
  rcases h : writeScalars d clusterId c with ⟨d3, log3⟩
  simp only [writeCluster, h]

/-! ## Lemmas on the three ways the read operation ends -/

theorem read_of_error
    (readCerts : Cluster → List (List (String × String)))
    (d : ResourceData) (client : AWSClient) (e : GoError)
    (hcall : client.cloudhsmv2conn.DescribeClusters (describeClustersInput d) = .error e) :
    dataSourceCloudHsm2ClusterRead readCerts d client =
      ⟨d, [describeClustersInput d], [], .returned (some e)⟩ := by
  simp only [dataSourceCloudHsm2ClusterRead, hcall]

theorem read_of_no_match
    (readCerts : Cluster → List (List (String × String)))
    (d : ResourceData) (client : AWSClient) (out : DescribeClustersOutput)
    (hcall : client.cloudhsmv2conn.DescribeClusters (describeClustersInput d) = .ok out)
    (hsel : selectCluster (d.GetString "cluster_id") out.Clusters = none) :
    dataSourceCloudHsm2ClusterRead readCerts d client =
      ⟨d, [describeClustersInput d], [], .returned (some (.errorf
        ("cluster with id " ++ d.GetString "cluster_id" ++ " not found")))⟩ := by
  simp only [dataSourceCloudHsm2ClusterRead, hcall, hsel]

theorem read_of_match
    (readCerts : Cluster → List (List (String × String)))
    (d : ResourceData) (client : AWSClient) (out : DescribeClustersOutput) (c : Cluster)
    (hcall : client.cloudhsmv2conn.DescribeClusters (describeClustersInput d) = .ok out)
    (hsel : selectCluster (d.GetString "cluster_id") out.Clusters = some c) :
    dataSourceCloudHsm2ClusterRead readCerts d client =
      writeCluster readCerts d (describeClustersInput d) (d.GetString "cluster_id") c := by
  simp only [dataSourceCloudHsm2ClusterRead, hcall, hsel]

/-- Every `d.Set` call of a run belongs to the branch `cluster != nil` of some
cluster. -/
theorem read_sets_cases
    (readCerts : Cluster → List (List (String × String)))
    (d : ResourceData) (client : AWSClient) :
    (dataSourceCloudHsm2ClusterRead readCerts d client).sets = [] ∨
    ∃ c, dataSourceCloudHsm2ClusterRead readCerts d client =
      writeCluster readCerts d (describeClustersInput d) (d.GetString "cluster_id") c := by
  cases hcall : client.cloudhsmv2conn.DescribeClusters (describeClustersInput d) with
  | error e => left; rw [read_of_error readCerts d client e hcall]
  | ok out =>
    cases hsel : selectCluster (d.GetString "cluster_id") out.Clusters with
    | none => left; rw [read_of_no_match readCerts d client out hcall hsel]
    | some c => right; exact ⟨c, read_of_match readCerts d client out c hcall hsel⟩

/-! ## The claims -/

/-- C2: when the remote call succeeds and no returned cluster has an identifier
(as `aws.StringValue` reads it) equal to the requested one, the empty list
included, the read operation returns the error
`cluster with id <identifier> not found`. -/
theorem read_not_found
    (readCerts : Cluster → List (List (String × String)))
    (d : ResourceData) (client : AWSClient) (out : DescribeClustersOutput)
    (hcall : client.cloudhsmv2conn.DescribeClusters (describeClustersInput d) = .ok out)
    (hnone : ∀ c ∈ out.Clusters, StringValue c.ClusterId ≠ d.GetString "cluster_id") :
    (dataSourceCloudHsm2ClusterRead readCerts d client).outcome =
      .returned (some (.errorf
        ("cluster with id " ++ d.GetString "cluster_id" ++ " not found"))) := by
  rw [read_of_no_match readCerts d client out hcall (selectCluster_none _ _ hnone)]

/-- Witness of C2: the remote returns the cluster `"A"`, the lookup is for
`"B"`. -/
theorem read_not_found_witness :
    (∀ c ∈ [clusterA], StringValue c.ClusterId ≠ dB.GetString "cluster_id") ∧
    (dataSourceCloudHsm2ClusterRead noCerts dB (clientOf [clusterA])).outcome =
      .returned (some (.errorf "cluster with id B not found")) :=
  ⟨by decide, read_not_found noCerts dB (clientOf [clusterA]) ⟨[clusterA]⟩ rfl (by decide)⟩

/-- C3: the read operation sends exactly one request; its `MaxResults` is 1, its
filter `clusterIds` is the one requested identifier, its filter `states` is the
one given state when that state is non-empty and is absent when it is empty,
and it has no other filter key. -/
theorem read_request
    (readCerts : Cluster → List (List (String × String)))
    (d : ResourceData) (client : AWSClient) :
    (dataSourceCloudHsm2ClusterRead readCerts d client).requests = [describeClustersInput d] ∧
    (describeClustersInput d).MaxResults = some 1 ∧
    mapLookup (describeClustersInput d).Filters "clusterIds" = some [d.GetString "cluster_id"] ∧
    mapLookup (describeClustersInput d).Filters "states" =
      (if d.GetString "cluster_state" = "" then none else some [d.GetString "cluster_state"]) ∧
    (describeClustersInput d).Filters.map Prod.fst =
      (if d.GetString "cluster_state" = "" then ["clusterIds"] else ["clusterIds", "states"]) := by
  refine ⟨?_, ?_⟩
  · cases hcall : client.cloudhsmv2conn.DescribeClusters (describeClustersInput d) with
    | error e => rw [read_of_error readCerts d client e hcall]
    | ok out =>
      cases hsel : selectCluster (d.GetString "cluster_id") out.Clusters with
      | none => rw [read_of_no_match readCerts d client out hcall hsel]
      | some c =>
        rw [read_of_match readCerts d client out c hcall hsel, writeCluster_eq]
        exact writeDerived_requests _ _ _ _
  · by_cases hstate : d.GetString "cluster_state" = ""
    · have hlen : ¬ (d.GetString "cluster_state").length > 0 := by
        rw [string_length_pos_iff]; exact fun h => h hstate
      simp [describeClustersInput, hlen, hstate, mapLookup]
    · have hlen : (d.GetString "cluster_state").length > 0 :=
        (string_length_pos_iff _).2 hstate
      simp [describeClustersInput, hlen, hstate, mapLookup, mapAssign]

/-- C6: when the remote call fails, the read operation returns the very error
of the remote call. -/
theorem read_remote_error
    (readCerts : Cluster → List (List (String × String)))
    (d : ResourceData) (client : AWSClient) (e : GoError)
    (hcall : client.cloudhsmv2conn.DescribeClusters (describeClustersInput d) = .error e) :
    (dataSourceCloudHsm2ClusterRead readCerts d client).outcome = .returned (some e) := by
  rw [read_of_error readCerts d client e hcall]

/-- Witness of C6: a remote call that is refused. -/
theorem read_remote_error_witness :
    (dataSourceCloudHsm2ClusterRead noCerts dADeleted clientFailing).outcome =
      .returned (some (.foreign "AccessDeniedException: not authorized")) :=
  read_remote_error noCerts dADeleted clientFailing _ rfl

/-- C10: when the remote call fails, or succeeds with no cluster carrying the
requested identifier, the record after the call is the record before it and
no `d.Set` call was made. -/
theorem read_failure_frame
    (readCerts : Cluster → List (List (String × String)))
    (d : ResourceData) (client : AWSClient)
    (h : (∃ e, client.cloudhsmv2conn.DescribeClusters (describeClustersInput d) = .error e) ∨
      (∃ out, client.cloudhsmv2conn.DescribeClusters (describeClustersInput d) = .ok out ∧
        ∀ c ∈ out.Clusters, StringValue c.ClusterId ≠ d.GetString "cluster_id")) :
    (dataSourceCloudHsm2ClusterRead readCerts d client).d = d ∧
    (dataSourceCloudHsm2ClusterRead readCerts d client).sets = [] ∧
    ∃ e, (dataSourceCloudHsm2ClusterRead readCerts d client).outcome = .returned (some e) := by
  rcases h with ⟨e, hcall⟩ | ⟨out, hcall, hnone⟩
  · rw [read_of_error readCerts d client e hcall]
    exact ⟨rfl, rfl, _, rfl⟩
  · rw [read_of_no_match readCerts d client out hcall (selectCluster_none _ _ hnone)]
    exact ⟨rfl, rfl, _, rfl⟩

/-- Witness of C10: no cluster matches `"B"`; identity and attributes stay as
configured. -/
theorem read_failure_frame_witness :
    (dataSourceCloudHsm2ClusterRead noCerts dB (clientOf [clusterA])).d = dB ∧
    (dataSourceCloudHsm2ClusterRead noCerts dB (clientOf [clusterA])).sets = [] ∧
    ∃ e, (dataSourceCloudHsm2ClusterRead noCerts dB (clientOf [clusterA])).outcome
      = .returned (some e) :=
  read_failure_frame noCerts dB (clientOf [clusterA])
    (Or.inr ⟨⟨[clusterA]⟩, rfl, by decide⟩)

/-- Counterexample to C1: one returned cluster, carrying the requested
identifier `"A"`, and a schema accepting every write, so that every write made
succeeds; one of its modules has no address, and the call panics instead of
returning. -/
theorem read_single_match_nil_address :
    (clientOf [clusterNoIp]).cloudhsmv2conn.DescribeClusters (describeClustersInput dA)
      = .ok ⟨[clusterNoIp]⟩ ∧
    [clusterNoIp].filter (fun c => StringValue c.ClusterId = dA.GetString "cluster_id")
      = [clusterNoIp] ∧
    (∀ k v, dA.setErr k v = none) ∧
    (∀ s ∈ (dataSourceCloudHsm2ClusterRead noCerts dA (clientOf [clusterNoIp])).sets,
      s.err = none) ∧
    (dataSourceCloudHsm2ClusterRead noCerts dA (clientOf [clusterNoIp])).outcome
      = .nilDereference ∧
    (dataSourceCloudHsm2ClusterRead noCerts dA (clientOf [clusterNoIp])).outcome
      ≠ .returned none :=
  ⟨rfl, by decide, fun _ _ => rfl, by decide, by decide, by decide⟩

/-- C1, amended: when the remote call succeeds with exactly one cluster carrying
the requested identifier, every write made to the record succeeds, and every
module of that cluster has an address and every subnet attachment a subnet id,
the read operation returns no error and leaves the record with the requested
identifier as identity and with `vpc_id`, `security_group_id` and
`cluster_state` equal to the cluster's `VpcId`, `SecurityGroup` and `State`. -/
theorem read_single_match
    (readCerts : Cluster → List (List (String × String)))
    (d : ResourceData) (client : AWSClient) (out : DescribeClustersOutput) (c : Cluster)
    (hcall : client.cloudhsmv2conn.DescribeClusters (describeClustersInput d) = .ok out)
    (hone : out.Clusters.filter (fun x => StringValue x.ClusterId = d.GetString "cluster_id")
      = [c])
    (hall : ∀ s ∈ (dataSourceCloudHsm2ClusterRead readCerts d client).sets, s.err = none)
    (hsub : ∀ e ∈ c.SubnetMapping, e.2 ≠ none) (hips : ∀ h ∈ c.Hsms, h.EniIp ≠ none) :
    (dataSourceCloudHsm2ClusterRead readCerts d client).outcome = .returned none ∧
    (dataSourceCloudHsm2ClusterRead readCerts d client).d.Id = d.GetString "cluster_id" ∧
    mapLookup (dataSourceCloudHsm2ClusterRead readCerts d client).d.attrs "vpc_id"
      = some (.str c.VpcId) ∧
    mapLookup (dataSourceCloudHsm2ClusterRead readCerts d client).d.attrs "security_group_id"
      = some (.str c.SecurityGroup) ∧
    mapLookup (dataSourceCloudHsm2ClusterRead readCerts d client).d.attrs "cluster_state"
      = some (.str c.State) := by
  have hsel : selectCluster (d.GetString "cluster_id") out.Clusters = some c := by
    rw [selectCluster_eq_getLast, hone]; rfl
  obtain ⟨subnets, hs⟩ := derefAll_isSome (c.SubnetMapping.map Prod.snd) (by
    intro p hp
    obtain ⟨e, he, rfl⟩ := List.mem_map.1 hp
    exact hsub e he)
  obtain ⟨ips, hi⟩ := derefAll_isSome (c.Hsms.map Hsm.EniIp) (by
    intro p hp
    obtain ⟨h, hh, rfl⟩ := List.mem_map.1 hp
    exact hips h hh)
  rw [read_of_match readCerts d client out c hcall hsel, writeCluster_eq] at hall ⊢
  have hall2 : ∀ s ∈ (writeScalars d (d.GetString "cluster_id") c).2 ++
      (writeDerived readCerts (writeScalars d (d.GetString "cluster_id") c).1
        (describeClustersInput d) c).sets, s.err = none := hall
  obtain ⟨h1, h2, h3⟩ := writeScalars_all_accepted d (d.GetString "cluster_id") c
    (fun s hs => hall2 s (List.mem_append_left _ hs))
  obtain ⟨hout, hattrs⟩ := writeDerived_accepted readCerts _ (describeClustersInput d) c
    subnets ips hs hi (fun s hs => hall2 s (List.mem_append_right _ hs))
  refine ⟨hout, ?_, ?_, ?_, ?_⟩
  · show (writeDerived readCerts _ _ c).d.id = _
    rw [writeDerived_id, writeScalars_id]
  all_goals show mapLookup (writeDerived readCerts _ _ c).d.attrs _ = _
  all_goals rw [hattrs, writeScalars_accepted d _ c h1 h2 h3]
  · rw [mapLookup_mapAssign_ne _ _ _ _ (by decide), mapLookup_mapAssign_ne _ _ _ _ (by decide),
      mapLookup_mapAssign_ne _ _ _ _ (by decide), mapLookup_mapAssign_ne _ _ _ _ (by decide),
      mapLookup_mapAssign_ne _ _ _ _ (by decide), mapLookup_mapAssign_self]
  · rw [mapLookup_mapAssign_ne _ _ _ _ (by decide), mapLookup_mapAssign_ne _ _ _ _ (by decide),
      mapLookup_mapAssign_ne _ _ _ _ (by decide), mapLookup_mapAssign_ne _ _ _ _ (by decide),
      mapLookup_mapAssign_self]
  · rw [mapLookup_mapAssign_ne _ _ _ _ (by decide), mapLookup_mapAssign_ne _ _ _ _ (by decide),
      mapLookup_mapAssign_ne _ _ _ _ (by decide), mapLookup_mapAssign_self]

/-- Witness of C1, amended: the remote returns the one cluster `"A"`, and the
record has the declared schema, which refuses undeclared keys. -/
theorem read_single_match_witness :
    declaredSchema "undeclared" (.str none) ≠ none ∧
    (∀ s ∈ (dataSourceCloudHsm2ClusterRead noCerts dADeclared (clientOf [clusterA])).sets,
      s.err = none) ∧
    (dataSourceCloudHsm2ClusterRead noCerts dADeclared (clientOf [clusterA])).outcome
      = .returned none ∧
    (dataSourceCloudHsm2ClusterRead noCerts dADeclared (clientOf [clusterA])).d.Id = "A" ∧
    mapLookup (dataSourceCloudHsm2ClusterRead noCerts dADeclared (clientOf [clusterA])).d.attrs
      "vpc_id" = some (.str (some "vpc-1")) ∧
    mapLookup (dataSourceCloudHsm2ClusterRead noCerts dADeclared (clientOf [clusterA])).d.attrs
      "security_group_id" = some (.str (some "sg-1")) ∧
    mapLookup (dataSourceCloudHsm2ClusterRead noCerts dADeclared (clientOf [clusterA])).d.attrs
      "cluster_state" = some (.str (some "ACTIVE")) :=
  ⟨by decide, by decide,
   read_single_match noCerts dADeclared (clientOf [clusterA]) ⟨[clusterA]⟩ clusterA rfl
     (by decide) (by decide) (by decide) (by decide)⟩

/-- Counterexample to C4: two returned clusters carry the requested identifier
`"A"`; the first of them has `VpcId` `vpc-1`, yet the second one is selected
and its `VpcId`, `vpc-2`, is what the record holds. -/
theorem read_two_matches_takes_second :
    [clusterA, clusterA2].find? (fun c => StringValue c.ClusterId = dA.GetString "cluster_id")
      = some clusterA ∧
    selectCluster (dA.GetString "cluster_id") [clusterA, clusterA2] = some clusterA2 ∧
    clusterA.VpcId = some "vpc-1" ∧
    mapLookup (dataSourceCloudHsm2ClusterRead noCerts dA
      (clientOf [clusterA, clusterA2])).d.attrs "vpc_id" = some (.str (some "vpc-2")) ∧
    mapLookup (dataSourceCloudHsm2ClusterRead noCerts dA
      (clientOf [clusterA, clusterA2])).d.attrs "ip_addresses" = some (.strs ["10.0.1.1"]) :=
  ⟨by decide, by decide, rfl, by decide, by decide⟩

/-- C4, amended: the cluster the read operation selects and copies into the
record is the last entry of the returned list whose identifier equals the
requested one: the identity becomes the requested identifier, the first four
`d.Set` calls carry that entry's `VpcId`, `SecurityGroup`, `State` and
certificates, and every `subnet_ids` or `ip_addresses` call carries that
entry's subnet ids or module addresses. -/
theorem read_selects_last
    (readCerts : Cluster → List (List (String × String)))
    (d : ResourceData) (client : AWSClient) (out : DescribeClustersOutput) (c : Cluster)
    (hcall : client.cloudhsmv2conn.DescribeClusters (describeClustersInput d) = .ok out)
    (hlast : (out.Clusters.filter
      (fun x => StringValue x.ClusterId = d.GetString "cluster_id")).getLast? = some c) :
    selectCluster (d.GetString "cluster_id") out.Clusters = some c ∧
    (dataSourceCloudHsm2ClusterRead readCerts d client).d.Id = d.GetString "cluster_id" ∧
    ((dataSourceCloudHsm2ClusterRead readCerts d client).sets.map
        (fun s => (s.key, s.value))).take 4 =
      [("vpc_id", .str c.VpcId), ("security_group_id", .str c.SecurityGroup),
       ("cluster_state", .str c.State), ("cluster_certificates", .maps (readCerts c))] ∧
    (∀ s ∈ (dataSourceCloudHsm2ClusterRead readCerts d client).sets,
      (s.key = "subnet_ids" →
        ∃ xs, s.value = .strs xs ∧ xs.map some = c.SubnetMapping.map Prod.snd) ∧
      (s.key = "ip_addresses" →
        ∃ xs, s.value = .strs xs ∧ xs.map some = c.Hsms.map Hsm.EniIp)) := by
  have hsel : selectCluster (d.GetString "cluster_id") out.Clusters = some c := by
    rw [selectCluster_eq_getLast, hlast]
  rw [read_of_match readCerts d client out c hcall hsel, writeCluster_eq]
  refine ⟨hsel, ?_, ?_, ?_⟩
  · show (writeDerived readCerts _ _ c).d.id = _
    rw [writeDerived_id, writeScalars_id]
  · have h1 := writeDerived_first_set readCerts (writeScalars d (d.GetString "cluster_id") c).1
      (describeClustersInput d) c
    show (((writeScalars d (d.GetString "cluster_id") c).2 ++
      (writeDerived readCerts _ _ c).sets).map (fun s => (s.key, s.value))).take 4 = _
    rw [writeScalars_sets, List.map_append]
    simp only [List.map_cons, List.map_nil, List.cons_append, List.nil_append, List.take_succ_cons]
    rw [h1]
  · intro s hs
    have hs2 : s ∈ (writeScalars d (d.GetString "cluster_id") c).2 ++
        (writeDerived readCerts (writeScalars d (d.GetString "cluster_id") c).1
          (describeClustersInput d) c).sets := hs
    rw [writeScalars_sets, List.mem_append] at hs2
    rcases hs2 with hs2 | hs2
    · simp only [List.mem_cons, List.mem_singleton, List.not_mem_nil, or_false] at hs2
      rcases hs2 with rfl | rfl | rfl
      all_goals exact ⟨fun hk => by simp at hk, fun hk => by simp at hk⟩
    · exact writeDerived_values readCerts _ _ c s hs2

/-- Witness of C4, amended: of two clusters `"A"` the second is copied. -/
theorem read_selects_last_witness :
    selectCluster (dA.GetString "cluster_id") [clusterA, clusterA2] = some clusterA2 ∧
    (dataSourceCloudHsm2ClusterRead noCerts dA (clientOf [clusterA, clusterA2])).d.Id = "A" ∧
    ((dataSourceCloudHsm2ClusterRead noCerts dA (clientOf [clusterA, clusterA2])).sets.map
        (fun s => (s.key, s.value))).take 4 =
      [("vpc_id", .str (some "vpc-2")), ("security_group_id", .str (some "sg-2")),
       ("cluster_state", .str (some "DEGRADED")), ("cluster_certificates", .maps [])] ∧
    (∀ s ∈ (dataSourceCloudHsm2ClusterRead noCerts dA (clientOf [clusterA, clusterA2])).sets,
      (s.key = "subnet_ids" →
        ∃ xs, s.value = .strs xs ∧ xs.map some = clusterA2.SubnetMapping.map Prod.snd) ∧
      (s.key = "ip_addresses" →
        ∃ xs, s.value = .strs xs ∧ xs.map some = clusterA2.Hsms.map Hsm.EniIp)) :=
  read_selects_last noCerts dA (clientOf [clusterA, clusterA2]) ⟨[clusterA, clusterA2]⟩
    clusterA2 rfl (by decide)

/-- C5: for a matched cluster whose modules all carry an address and whose
subnet attachments all carry a subnet id, and provided the writes made succeed,
the value written to `ip_addresses` is the list of the modules' addresses, one
per module, and the value written to `subnet_ids` is the list of the
attachments' subnet ids; as sets they hold exactly those addresses and subnet
ids. -/
theorem read_flattened_sets
    (readCerts : Cluster → List (List (String × String)))
    (d : ResourceData) (client : AWSClient) (out : DescribeClustersOutput) (c : Cluster)
    (hcall : client.cloudhsmv2conn.DescribeClusters (describeClustersInput d) = .ok out)
    (hsel : selectCluster (d.GetString "cluster_id") out.Clusters = some c)
    (hall : ∀ s ∈ (dataSourceCloudHsm2ClusterRead readCerts d client).sets, s.err = none)
    (hsub : ∀ e ∈ c.SubnetMapping, e.2 ≠ none) (hips : ∀ h ∈ c.Hsms, h.EniIp ≠ none) :
    ∃ subnets ips : List String,
      mapLookup (dataSourceCloudHsm2ClusterRead readCerts d client).d.attrs "subnet_ids"
        = some (.strs subnets) ∧
      mapLookup (dataSourceCloudHsm2ClusterRead readCerts d client).d.attrs "ip_addresses"
        = some (.strs ips) ∧
      subnets.map some = c.SubnetMapping.map Prod.snd ∧
      ips.map some = c.Hsms.map Hsm.EniIp ∧
      ips.length = c.Hsms.length ∧
      (∀ x, x ∈ subnets ↔ ∃ e ∈ c.SubnetMapping, e.2 = some x) ∧
      (∀ x, x ∈ ips ↔ ∃ h ∈ c.Hsms, h.EniIp = some x) := by
  obtain ⟨subnets, hs⟩ := derefAll_isSome (c.SubnetMapping.map Prod.snd) (by
    intro p hp
    obtain ⟨e, he, rfl⟩ := List.mem_map.1 hp
    exact hsub e he)
  obtain ⟨ips, hi⟩ := derefAll_isSome (c.Hsms.map Hsm.EniIp) (by
    intro p hp
    obtain ⟨h, hh, rfl⟩ := List.mem_map.1 hp
    exact hips h hh)
  rw [read_of_match readCerts d client out c hcall hsel, writeCluster_eq] at hall ⊢
  have hall2 : ∀ s ∈ (writeScalars d (d.GetString "cluster_id") c).2 ++
      (writeDerived readCerts (writeScalars d (d.GetString "cluster_id") c).1
        (describeClustersInput d) c).sets, s.err = none := hall
  obtain ⟨_, hattrs⟩ := writeDerived_accepted readCerts _ (describeClustersInput d) c
    subnets ips hs hi (fun s hs => hall2 s (List.mem_append_right _ hs))
  have hs2 := ((derefAll_eq_some _ _).1 hs).symm
  have hi2 := ((derefAll_eq_some _ _).1 hi).symm
  refine ⟨subnets, ips, ?_, ?_, hs2, hi2, ?_, ?_, ?_⟩
  · show mapLookup (writeDerived readCerts _ _ c).d.attrs _ = _
    rw [hattrs, mapLookup_mapAssign_ne _ _ _ _ (by decide), mapLookup_mapAssign_self]
  · show mapLookup (writeDerived readCerts _ _ c).d.attrs _ = _
    rw [hattrs, mapLookup_mapAssign_self]
  · have := congrArg List.length hi2
    simpa using this
  · intro x
    have hx : x ∈ subnets ↔ some x ∈ subnets.map some := by simp
    rw [hx, hs2, List.mem_map]
  · intro x
    have hx : x ∈ ips ↔ some x ∈ ips.map some := by simp
    rw [hx, hi2, List.mem_map]

/-- Witness of C5: modules with addresses `10.0.0.1` and `10.0.0.2`, on a record
with the declared schema, which refuses undeclared keys. -/
theorem read_flattened_sets_witness :
    declaredSchema "undeclared" (.str none) ≠ none ∧
    (∀ s ∈ (dataSourceCloudHsm2ClusterRead noCerts dADeclared (clientOf [clusterA])).sets,
      s.err = none) ∧
    ∃ subnets ips : List String,
      mapLookup (dataSourceCloudHsm2ClusterRead noCerts dADeclared (clientOf [clusterA])).d.attrs
        "subnet_ids" = some (.strs subnets) ∧
      mapLookup (dataSourceCloudHsm2ClusterRead noCerts dADeclared (clientOf [clusterA])).d.attrs
        "ip_addresses" = some (.strs ips) ∧
      subnets.map some = clusterA.SubnetMapping.map Prod.snd ∧
      ips.map some = clusterA.Hsms.map Hsm.EniIp ∧
      ips.length = clusterA.Hsms.length ∧
      (∀ x, x ∈ subnets ↔ ∃ e ∈ clusterA.SubnetMapping, e.2 = some x) ∧
      (∀ x, x ∈ ips ↔ ∃ h ∈ clusterA.Hsms, h.EniIp = some x) :=
  ⟨by decide, by decide,
   read_flattened_sets noCerts dADeclared (clientOf [clusterA]) ⟨[clusterA]⟩ clusterA rfl
     (by decide) (by decide) (by decide) (by decide)⟩

/-- Counterexample to C7: the cluster `"A"` is matched and the write of
`cluster_certificates` is rejected; the error returned is the error of the
write itself, with its own text and nothing added. -/
theorem read_certificates_rejected_bare :
    selectCluster ({ dA with setErr := rejectCerts }.GetString "cluster_id") [clusterA]
      = some clusterA ∧
    (⟨"cluster_certificates", .maps [], some (.foreign "Invalid address to set")⟩ : SetCall) ∈
      (dataSourceCloudHsm2ClusterRead noCerts { dA with setErr := rejectCerts }
        (clientOf [clusterA])).sets ∧
    (dataSourceCloudHsm2ClusterRead noCerts { dA with setErr := rejectCerts }
      (clientOf [clusterA])).outcome = .returned (some (.foreign "Invalid address to set")) ∧
    (GoError.foreign "Invalid address to set").Error = "Invalid address to set" :=
  ⟨by decide, by decide, by decide, rfl⟩

/-- C7, amended: when a write of `subnet_ids` or of `ip_addresses` is rejected,
the error the read operation returns is built by `fmt.Errorf`; its text names
the field (`Subnet IDs`, `IP Addresses`), holds the resource identifier in
parentheses and ends with the text of the write's error. -/
theorem read_derived_write_rejected
    (readCerts : Cluster → List (List (String × String)))
    (d : ResourceData) (client : AWSClient) (s : SetCall) (e : GoError)
    (hs : s ∈ (dataSourceCloudHsm2ClusterRead readCerts d client).sets)
    (he : s.err = some e) :
    (s.key = "subnet_ids" →
      (dataSourceCloudHsm2ClusterRead readCerts d client).outcome = .returned (some (.errorf
        ("[DEBUG] Error saving Subnet IDs to state for CloudHSMv2 Cluster ("
          ++ d.GetString "cluster_id" ++ "): " ++ e.Error)))) ∧
    (s.key = "ip_addresses" →
      (dataSourceCloudHsm2ClusterRead readCerts d client).outcome = .returned (some (.errorf
        ("[DEBUG] Error saving IP Addresses state for CloudHSMv2 Cluster ("
          ++ d.GetString "cluster_id" ++ "): " ++ e.Error)))) := by
  rcases read_sets_cases readCerts d client with hnil | ⟨c, hc⟩
  · rw [hnil] at hs; cases hs
  · rw [hc, writeCluster_eq] at hs ⊢
    have hs2 : s ∈ (writeScalars d (d.GetString "cluster_id") c).2 ++
        (writeDerived readCerts (writeScalars d (d.GetString "cluster_id") c).1
          (describeClustersInput d) c).sets := hs
    rw [writeScalars_sets, List.mem_append] at hs2
    rcases hs2 with hs2 | hs2
    · simp only [List.mem_cons, List.mem_singleton, List.not_mem_nil, or_false] at hs2
      rcases hs2 with rfl | rfl | rfl
      all_goals exact ⟨fun hk => by simp at hk, fun hk => by simp at hk⟩
    · have h := writeDerived_rejected readCerts _ _ c s e hs2 he
      rw [writeScalars_id] at h
      exact ⟨h.2.1, h.2.2⟩

/-- Witness of C7, amended: the write of `ip_addresses` is rejected. -/
theorem read_derived_write_rejected_witness :
    (⟨"ip_addresses", .strs ["10.0.0.1", "10.0.0.2"],
        some (.foreign "Invalid address to set")⟩ : SetCall) ∈
      (dataSourceCloudHsm2ClusterRead noCerts { dA with setErr := rejectIps }
        (clientOf [clusterA])).sets ∧
    (dataSourceCloudHsm2ClusterRead noCerts { dA with setErr := rejectIps }
      (clientOf [clusterA])).outcome = .returned (some (.errorf
        "[DEBUG] Error saving IP Addresses state for CloudHSMv2 Cluster (A): Invalid address to set")) :=
  ⟨by decide,
   (read_derived_write_rejected noCerts { dA with setErr := rejectIps } (clientOf [clusterA])
      ⟨"ip_addresses", .strs ["10.0.0.1", "10.0.0.2"], some (.foreign "Invalid address to set")⟩
      (.foreign "Invalid address to set") (by decide) rfl).2 rfl⟩

/-- Counterexample to C8: the cluster `"A"` is matched and the writes of
`vpc_id` and `security_group_id` are rejected, every other write accepted; the
read operation returns no error, and the record holds neither attribute. -/
theorem read_scalar_rejections_unreported :
    (dataSourceCloudHsm2ClusterRead noCerts { dA with setErr := rejectVpcAndGroup }
      (clientOf [clusterA])).sets.take 3 =
      [⟨"vpc_id", .str (some "vpc-1"), some (.foreign "Invalid address to set")⟩,
       ⟨"security_group_id", .str (some "sg-1"), some (.foreign "Invalid address to set")⟩,
       ⟨"cluster_state", .str (some "ACTIVE"), none⟩] ∧
    (dataSourceCloudHsm2ClusterRead noCerts { dA with setErr := rejectVpcAndGroup }
      (clientOf [clusterA])).outcome = .returned none ∧
    mapLookup (dataSourceCloudHsm2ClusterRead noCerts { dA with setErr := rejectVpcAndGroup }
      (clientOf [clusterA])).d.attrs "vpc_id" = none ∧
    mapLookup (dataSourceCloudHsm2ClusterRead noCerts { dA with setErr := rejectVpcAndGroup }
      (clientOf [clusterA])).d.attrs "security_group_id" = none :=
  ⟨by decide, by decide, by decide, by decide⟩

/-- C8, amended: when the remote call fails, or a write of
`cluster_certificates`, `subnet_ids` or `ip_addresses` is rejected, the read
operation returns an error. -/
theorem read_checked_failures_reported
    (readCerts : Cluster → List (List (String × String)))
    (d : ResourceData) (client : AWSClient)
    (h : (∃ e, client.cloudhsmv2conn.DescribeClusters (describeClustersInput d) = .error e) ∨
      (∃ s ∈ (dataSourceCloudHsm2ClusterRead readCerts d client).sets, s.err ≠ none ∧
        (s.key = "cluster_certificates" ∨ s.key = "subnet_ids" ∨ s.key = "ip_addresses"))) :
    ∃ e, (dataSourceCloudHsm2ClusterRead readCerts d client).outcome = .returned (some e) := by
  rcases h with ⟨e, hcall⟩ | ⟨s, hs, he, hk⟩
  · exact ⟨e, by rw [read_of_error readCerts d client e hcall]⟩
  · rcases read_sets_cases readCerts d client with hnil | ⟨c, hc⟩
    · rw [hnil] at hs; cases hs
    · rw [hc, writeCluster_eq] at hs ⊢
      have hs2 : s ∈ (writeScalars d (d.GetString "cluster_id") c).2 ++
          (writeDerived readCerts (writeScalars d (d.GetString "cluster_id") c).1
            (describeClustersInput d) c).sets := hs
      rw [writeScalars_sets, List.mem_append] at hs2
      rcases hs2 with hs2 | hs2
      · simp only [List.mem_cons, List.mem_singleton, List.not_mem_nil, or_false] at hs2
        rcases hs2 with rfl | rfl | rfl
        all_goals simp at hk
      · obtain ⟨e, hse⟩ := Option.ne_none_iff_exists'.1 he
        have h := writeDerived_rejected readCerts _ _ c s e hs2 hse
        rcases hk with hk | hk | hk
        · exact ⟨_, h.1 hk⟩
        · exact ⟨_, h.2.1 hk⟩
        · exact ⟨_, h.2.2 hk⟩

/-- Witness of C8, amended: the write of `cluster_certificates` is rejected. -/
theorem read_checked_failures_reported_witness :
    ∃ e, (dataSourceCloudHsm2ClusterRead noCerts { dA with setErr := rejectCerts }
      (clientOf [clusterA])).outcome = .returned (some e) :=
  read_checked_failures_reported noCerts { dA with setErr := rejectCerts } (clientOf [clusterA])
    (Or.inr ⟨⟨"cluster_certificates", .maps [], some (.foreign "Invalid address to set")⟩,
      by decide, by decide, Or.inl rfl⟩)

/-- C9: when every module of the matched cluster has an address and every
subnet attachment a subnet id, the read operation does not end in a `nil`
dereference: it returns, with an error or without. -/
theorem read_no_nil_dereference
    (readCerts : Cluster → List (List (String × String)))
    (d : ResourceData) (client : AWSClient)
    (h : ∀ out c, client.cloudhsmv2conn.DescribeClusters (describeClustersInput d) = .ok out →
      selectCluster (d.GetString "cluster_id") out.Clusters = some c →
      (∀ e ∈ c.SubnetMapping, e.2 ≠ none) ∧ (∀ m ∈ c.Hsms, m.EniIp ≠ none)) :
    (dataSourceCloudHsm2ClusterRead readCerts d client).outcome ≠ .nilDereference ∧
    ∃ err, (dataSourceCloudHsm2ClusterRead readCerts d client).outcome = .returned err := by
  have hret : ∃ err,
      (dataSourceCloudHsm2ClusterRead readCerts d client).outcome = .returned err := by
    cases hcall : client.cloudhsmv2conn.DescribeClusters (describeClustersInput d) with
    | error e => exact ⟨_, by rw [read_of_error readCerts d client e hcall]⟩
    | ok out =>
      cases hsel : selectCluster (d.GetString "cluster_id") out.Clusters with
      | none => exact ⟨_, by rw [read_of_no_match readCerts d client out hcall hsel]⟩
      | some c =>
        obtain ⟨hsub, hips⟩ := h out c hcall hsel
        rw [read_of_match readCerts d client out c hcall hsel, writeCluster_eq]
        exact writeDerived_returns readCerts _ _ c hsub hips
  obtain ⟨err, herr⟩ := hret
  refine ⟨?_, err, herr⟩
  rw [herr]
  intro hne
  cases hne

/-- Witness of C9: the cluster `"A"` with two modules and two subnets. -/
theorem read_no_nil_dereference_witness :
    (dataSourceCloudHsm2ClusterRead noCerts dA (clientOf [clusterA])).outcome
      ≠ .nilDereference ∧
    ∃ err, (dataSourceCloudHsm2ClusterRead noCerts dA (clientOf [clusterA])).outcome
      = .returned err :=
  read_no_nil_dereference noCerts dA (clientOf [clusterA]) (by
    intro out c hcall hsel
    have hout : out = ⟨[clusterA]⟩ := by
      have : (Except.ok ⟨[clusterA]⟩ : Except GoError DescribeClustersOutput) = .ok out := hcall
      cases this; rfl
    subst hout
    have hc : c = clusterA := by
      have : some clusterA = some c := hsel
      cases this; rfl
    subst hc
    exact ⟨by decide, by decide⟩)

/-! ## Scenarios of the specification -/

/-- Modules with addresses `10.0.0.1` and `10.0.0.2` give exactly these two
addresses in `ip_addresses`. -/
theorem scenario_ip_addresses :
    mapLookup (dataSourceCloudHsm2ClusterRead noCerts dA (clientOf [clusterA])).d.attrs
      "ip_addresses" = some (.strs ["10.0.0.1", "10.0.0.2"]) := by decide

/-- A lookup of `"A"` with state `DELETED` sends the filter `states` with that
one value, and an empty answer gives the not-found error for `"A"`. -/
theorem scenario_state_filter :
    (dataSourceCloudHsm2ClusterRead noCerts dADeleted (clientOf [])).requests =
      [⟨[("clusterIds", ["A"]), ("states", ["DELETED"])], some 1⟩] ∧
    (dataSourceCloudHsm2ClusterRead noCerts dADeleted (clientOf [])).outcome =
      .returned (some (.errorf "cluster with id A not found")) := by decide

end CloudHsm2
